import Mathlib

/-!
# HillsFitness backend — verification of the measurement algebra,
# validators, vision stages and plan generation

Shallow embedding of the numeric and list-processing core of the
HillsFitness backend (`project/backend/`), with theorems settling the
frozen claims about it.  All machine reals are modelled as `ℚ` (every
constant in the source is decimal, so the arithmetic is exact);
Python `dict[key]` lookups that can raise `KeyError` are modelled as
`Option`; Python's `math.log10` (an external libm call) is passed in
as an abstract function parameter, since no claim depends on its
values.
-/

namespace HillsFitness

/-- Python `int()` on a rational: truncation toward zero. -/
def pyTrunc (q : ℚ) : ℤ := if 0 ≤ q then ⌊q⌋ else ⌈q⌉

/-- Python `round(x, 1)`: round half to even, at one decimal place. -/
def roundHalfEven (q : ℚ) : ℤ :=
  let f := ⌊q⌋
  let r := q - f
  if r < 1/2 then f
  else if 1/2 < r then f + 1
  else if f % 2 = 0 then f else f + 1

/-- `round(x, 1)` from Python, used by Stage 5 for the final body-fat value. -/
def pyRound1 (q : ℚ) : ℚ := (roundHalfEven (q * 10) : ℚ) / 10

/-- Python `str.lower()` restricted to ASCII, as used on the `sex` strings. -/
def pyLower (s : String) : String := ⟨s.data.map Char.toLower⟩

/-! ## Measurement algebra: BMR / TDEE / goal scaling
(`services/llm_plan_generator.py`, `_calculate_nutrition_targets`) -/

/-- Mifflin–St Jeor, male branch (llm_plan_generator.py line 132). -/
def mifflinMale (w h a : ℚ) : ℚ := 10 * w + 6.25 * h - 5 * a + 5

/-- Mifflin–St Jeor, female branch (llm_plan_generator.py line 134). -/
def mifflinFemale (w h a : ℚ) : ℚ := 10 * w + 6.25 * h - 5 * a - 161

/-- BMR as computed by `_calculate_nutrition_targets` (lines 131–134):
the male formula for `sex == "male"`, the female formula for every other
sex value. -/
def llmBMR (sex : String) (w h a : ℚ) : ℚ :=
  if sex = "male" then mifflinMale w h a else mifflinFemale w h a

/-- BMR as the spec sentence words it: male formula, female formula, and
the average of the two for non-binary users. -/
def specBMR (sex : String) (w h a : ℚ) : ℚ :=
  if sex = "male" then mifflinMale w h a
  else if sex = "female" then mifflinFemale w h a
  else (mifflinMale w h a + mifflinFemale w h a) / 2

/-- `activity_multipliers` dict (llm_plan_generator.py lines 137–142);
`dict[key]` raises on any other key, hence `Option`. -/
def activityMultipliers : List (String × ℚ) :=
  [("sedentary", 1.2), ("light", 1.375), ("moderate", 1.55), ("high", 1.725)]

/-- TDEE on the data-contract path: BMR × activity multiplier. -/
def llmTDEE (sex act : String) (w h a : ℚ) : Option ℚ :=
  (activityMultipliers.lookup act).map (fun m => llmBMR sex w h a * m)

/-- `calorie_adjustments` dict (llm_plan_generator.py lines 147–152). -/
def goalAdjustments : List (String × ℚ) :=
  [("fat-loss", 0.85), ("muscle-gain", 1.10), ("recomp", 1.00), ("maintenance", 1.00)]

/-- `target_calories = tdee * calorie_adjustments[profile.primaryGoal]`
(llm_plan_generator.py line 154). -/
def llmTargetCalories (sex act goal : String) (w h a : ℚ) : Option ℚ :=
  (llmTDEE sex act w h a).bind (fun t => (goalAdjustments.lookup goal).map (fun adj => t * adj))

/-! ## Macro split selection (llm_plan_generator.py lines 159–172) -/

/-- The (protein, carb, fat) energy fractions chosen from the vision
`bfEstimate`: defaults 0.30/0.45/0.25, overridden to 0.35/0.40/0.25 when
`bfEstimate > 25` and to 0.25/0.50/0.25 when `bfEstimate < 12`. -/
def nutrientSplit (bf : ℚ) : ℚ × ℚ × ℚ :=
  if bf > 25 then (0.35, 0.40, 0.25)
  else if bf < 12 then (0.25, 0.50, 0.25)
  else (0.30, 0.45, 0.25)

/-! ## Weekly progression multipliers -/

/-- The `multipliers` dict of
`Enhanced4WeekPlanGenerator._apply_progressive_overload`
(services/user_service.py lines 354–359): week 4 is `0.8` unless the
experience level is `"beginner"`, in which case `1.0`.  `dict[week]`
raises on any other week. -/
def appliedWeekMultiplier (week : ℕ) (experience : String) : Option ℚ :=
  if week = 1 then some 1.0
  else if week = 2 then some 1.05
  else if week = 3 then some 1.10
  else if week = 4 then some (if experience ≠ "beginner" then 0.8 else 1.0)
  else none

/-- The `progression_multipliers` dict of the standalone
`apply_weekly_progression` (plan_generator.py lines 76–81): week 4 is
`0.7` for the `muscle_gain` goal and `1.15` otherwise. -/
def weekMultiplierByGoal (week : ℕ) (goal : String) : Option ℚ :=
  if week = 1 then some 1.0
  else if week = 2 then some 1.05
  else if week = 3 then some 1.10
  else if week = 4 then some (if goal = "muscle_gain" then 0.7 else 1.15)
  else none

/-- The `multipliers` dict of
`Enhanced4WeekPlanGenerator._get_volume_multiplier`
(services/user_service.py lines 424–427), stored on each
`WorkoutWeek.volume_multiplier`: week 4 is `0.8` for every experience
level. -/
def storedVolumeMultiplier (week : ℕ) : Option ℚ :=
  if week = 1 then some 1.0
  else if week = 2 then some 1.05
  else if week = 3 then some 1.10
  else if week = 4 then some 0.8
  else none

/-! ## Vision Stage 5: body-composition confidence
(services/vision_pipeline.py, `_stage5_body_composition`) -/

/-- `final_bf = sum(w * bf ...)` with weights `[0.5, 0.3, 0.2]`
(vision_pipeline.py lines 276–279). -/
def stage5FinalBF (navy visual ratio : ℚ) : ℚ :=
  0.5 * navy + 0.3 * visual + 0.2 * ratio

/-- `max_deviation = max(abs(bf - final_bf) for bf in bf_estimates)`
(vision_pipeline.py line 282): each estimate's distance from the
weighted combination. -/
def stage5MaxDeviation (navy visual ratio : ℚ) : ℚ :=
  max |navy - stage5FinalBF navy visual ratio|
    (max |visual - stage5FinalBF navy visual ratio|
      |ratio - stage5FinalBF navy visual ratio|)

/-- The confidence tier emitted by Stage 5 (vision_pipeline.py lines
283–288): thresholds 3 and 6 on `stage5MaxDeviation`. -/
def stage5Confidence (navy visual ratio : ℚ) : String :=
  if stage5MaxDeviation navy visual ratio < 3 then "high"
  else if stage5MaxDeviation navy visual ratio < 6 then "medium"
  else "low"

/-- The confidence tier as the spec sentence words it: thresholds 3 and
6 on the maximum PAIRWISE deviation between the three estimates. -/
def claimPairwiseConfidence (navy visual ratio : ℚ) : String :=
  let dev := max |navy - visual| (max |navy - ratio| |visual - ratio|)
  if dev < 3 then "high" else if dev < 6 then "medium" else "low"

/-! ## Vision Stage 1: image quality
(services/vision_pipeline.py, `_assess_image_quality` / `process_image`) -/

/-- `_assess_image_quality` (vision_pipeline.py lines 113–141) as a
function of the three image statistics it derives: Laplacian variance
(`blurVar`), mean luminance (`meanB`) and grayscale standard deviation
(`stdDev`).  The ×0.5 penalty for `meanB < 30` or `meanB > 220`
multiplies only the brightness component, before the weighted
combination; the result is capped at 1. -/
def assessImageQuality (blurVar meanB stdDev : ℚ) : ℚ :=
  let blurQuality := min (blurVar / 500) 1
  let brightnessQuality := 1 - |meanB - 128| / 128
  let contrastQuality := min (stdDev / 64) 1
  let penalized :=
    if meanB < 30 ∨ meanB > 220 then brightnessQuality * 0.5 else brightnessQuality
  min (blurQuality * 0.4 + penalized * 0.3 + contrastQuality * 0.3) 1

/-- The quality score as the claim words it: the weighted combination
itself penalized by ×0.5 when the mean luminance is out of range. -/
def claimQualityScore (blurVar meanB stdDev : ℚ) : ℚ :=
  let combined :=
    (min (blurVar / 500) 1) * 0.4 + (1 - |meanB - 128| / 128) * 0.3 +
      (min (stdDev / 64) 1) * 0.3
  if meanB < 30 ∨ meanB > 220 then combined * 0.5 else combined

/-- The Stage-1 gate in `process_image` (vision_pipeline.py lines
66–70): scores below `min_quality_score = 0.7` short-circuit with error
kind `low_quality` and the computed score attached (the fallback record
of `_error_response` carries it as `imageQuality`). -/
def stage1Gate (blurVar meanB stdDev : ℚ) : Except (String × ℚ) ℚ :=
  let q := assessImageQuality blurVar meanB stdDev
  if q < 0.7 then Except.error ("low_quality", q) else Except.ok q

end HillsFitness

namespace HillsFitness

/-! ## Claim theorems: C1, C2, C6 -/

/-- C1 counterexample: on a non-binary user the code's BMR
(`_calculate_nutrition_targets`) is NOT the average of the male and
female Mifflin–St Jeor values — the `else` branch applies the female
formula unchanged.  At weight 70 kg, height 170 cm, age 30 the code
yields 1451.5 while the claimed average is 1534.5. -/
theorem C1_nonbinary_bmr_not_average :
    llmBMR "non-binary" 70 170 30 ≠ specBMR "non-binary" 70 170 30 := by
  rw [llmBMR, specBMR, if_neg (show ¬("non-binary" = "male") by decide),
    if_neg (show ¬("non-binary" = "male") by decide),
    if_neg (show ¬("non-binary" = "female") by decide)]
  norm_num [mifflinMale, mifflinFemale]

/-- C1 (amended): the data-contract BMR computation returns the
Mifflin–St Jeor male value `10w + 6.25h − 5a + 5` exactly for
`sex = "male"`, and the female value `10w + 6.25h − 5a − 161` for every
other sex, non-binary included; no averaging takes place. -/
theorem C1_bmr_male_else_female (w h a : ℚ) (sex : String) :
    llmBMR "male" w h a = 10 * w + 6.25 * h - 5 * a + 5 ∧
    (sex ≠ "male" → llmBMR sex w h a = 10 * w + 6.25 * h - 5 * a - 161) := by
  refine ⟨by simp [llmBMR, mifflinMale], fun hs => ?_⟩
  simp [llmBMR, mifflinFemale, hs]

/-- C1 witness: the amended theorem evaluated at a concrete non-binary
input. -/
theorem C1_bmr_male_else_female_witness :
    ("non-binary" ≠ "male") ∧ llmBMR "non-binary" 70 170 30 = 10 * 70 + 6.25 * 170 - 5 * 30 - 161 :=
  ⟨by decide, (C1_bmr_male_else_female 70 170 30 "non-binary").2 (by decide)⟩

/-- C2: on the validated data-contract path the target daily energy is
TDEE scaled by exactly 0.85 for fat-loss, 1.10 for muscle-gain, 1.00 for
recomp and 1.00 for maintenance, for every sex, activity level and
anthropometric input. -/
theorem C2_goal_calorie_scaling (sex act : String) (w h a : ℚ) :
    llmTargetCalories sex act "fat-loss" w h a = (llmTDEE sex act w h a).map (fun t => t * 0.85) ∧
    llmTargetCalories sex act "muscle-gain" w h a = (llmTDEE sex act w h a).map (fun t => t * 1.10) ∧
    llmTargetCalories sex act "recomp" w h a = (llmTDEE sex act w h a).map (fun t => t * 1.00) ∧
    llmTargetCalories sex act "maintenance" w h a = (llmTDEE sex act w h a).map (fun t => t * 1.00) := by
  cases hl : llmTDEE sex act w h a <;>
    simp [llmTargetCalories, hl, goalAdjustments, List.lookup]

/-- C6 counterexample: `bfEstimate = 25.0` does NOT take the
high-body-fat split — the guard is the strict `bfEstimate > 25`, so 25.0
falls through to the default 0.30/0.45/0.25 split. -/
theorem C6_bf25_takes_default_split :
    nutrientSplit 25 = (0.30, 0.45, 0.25) ∧ nutrientSplit 25 ≠ (0.35, 0.40, 0.25) := by
  constructor <;> norm_num [nutrientSplit, Prod.ext_iff]

/-- C6 (amended): `bfEstimate = 25.0` and `bfEstimate = 24.9` both take
the default split 0.30/0.45/0.25; the high-body-fat split 0.35/0.40/0.25
is used exactly when `bfEstimate > 25`. -/
theorem C6_macro_split_boundary :
    nutrientSplit 25 = (0.30, 0.45, 0.25) ∧
    nutrientSplit (249/10) = (0.30, 0.45, 0.25) ∧
    (∀ bf : ℚ, nutrientSplit bf = (0.35, 0.40, 0.25) ↔ 25 < bf) := by
  refine ⟨by norm_num [nutrientSplit], by norm_num [nutrientSplit], fun bf => ?_⟩
  unfold nutrientSplit
  by_cases h : 25 < bf
  · simp [h]
  · by_cases h2 : bf < 12 <;> simp [h, h2, Prod.ext_iff] <;> norm_num

end HillsFitness

namespace HillsFitness

/-! ## Claim theorems: C3, C4, C7 -/

/-- C3 counterexample: the standalone `apply_weekly_progression`
(plan_generator.py) gives week 4 the multiplier 0.7 for the
`muscle_gain` goal and 1.15 for every other goal, regardless of
experience level — not the claimed 0.80 (intermediate/advanced) or 1.00
(beginner). -/
theorem C3_standalone_week4_multiplier :
    weekMultiplierByGoal 4 "muscle_gain" = some 0.7 ∧
    weekMultiplierByGoal 4 "fat_loss" = some 1.15 ∧
    (0.7 : ℚ) ≠ 0.8 ∧ (1.15 : ℚ) ≠ 0.8 ∧ (1.15 : ℚ) ≠ 1 := by
  refine ⟨?_, ?_, by norm_num, by norm_num, by norm_num⟩ <;>
    norm_num [weekMultiplierByGoal, (by decide : ¬("fat_loss" = "muscle_gain"))]

/-- C3 (amended): the service-path generator
(`Enhanced4WeekPlanGenerator._apply_progressive_overload`) applies the
claimed multipliers — 1.00, 1.05, 1.10, and for week 4 0.80 when the
experience is not beginner and 1.00 for beginners; the
`volume_multiplier` value STORED on week 4 is 0.8 for every experience
level; and the standalone `apply_weekly_progression` module instead
keys week 4 on the goal (0.7 for muscle_gain, 1.15 otherwise). -/
theorem C3_applied_week_multipliers (e : String) :
    appliedWeekMultiplier 1 e = some 1.0 ∧
    appliedWeekMultiplier 2 e = some 1.05 ∧
    appliedWeekMultiplier 3 e = some 1.10 ∧
    (e ≠ "beginner" → appliedWeekMultiplier 4 e = some 0.8) ∧
    appliedWeekMultiplier 4 "beginner" = some 1.0 ∧
    storedVolumeMultiplier 4 = some 0.8 := by
  refine ⟨by norm_num [appliedWeekMultiplier], by norm_num [appliedWeekMultiplier],
    by norm_num [appliedWeekMultiplier], fun he => ?_,
    by norm_num [appliedWeekMultiplier], by norm_num [storedVolumeMultiplier]⟩
  simp [appliedWeekMultiplier, he]

/-- C3 witness: the amended theorem at experience "intermediate". -/
theorem C3_applied_week_multipliers_witness :
    ("intermediate" ≠ "beginner") ∧ appliedWeekMultiplier 4 "intermediate" = some 0.8 :=
  ⟨by decide, (C3_applied_week_multipliers "intermediate").2.2.2.1 (by decide)⟩

/-- C4 (amended): the Stage-5 confidence tier derives from the maximum
deviation of the three estimates from their weighted combination
(weights 0.5/0.3/0.2), with the claimed thresholds: < 3 percentage
points → high, < 6 → medium, otherwise low. -/
theorem C4_confidence_from_mean_deviation (navy visual ratio : ℚ) :
    stage5Confidence navy visual ratio =
      (if max |navy - (0.5 * navy + 0.3 * visual + 0.2 * ratio)|
          (max |visual - (0.5 * navy + 0.3 * visual + 0.2 * ratio)|
            |ratio - (0.5 * navy + 0.3 * visual + 0.2 * ratio)|) < 3 then "high"
       else if max |navy - (0.5 * navy + 0.3 * visual + 0.2 * ratio)|
          (max |visual - (0.5 * navy + 0.3 * visual + 0.2 * ratio)|
            |ratio - (0.5 * navy + 0.3 * visual + 0.2 * ratio)|) < 6 then "medium"
       else "low") := rfl

/-- C7 counterexample: a sharp, high-contrast but very dark image
(Laplacian variance 500, mean luminance 10, standard deviation 64).
The claimed score — the whole weighted combination halved — is
463/1280 < 0.70, so the claim demands a `low_quality` abort; the code
halves only the brightness component, scores 911/1280 ≥ 0.70, and lets
the image through. -/
theorem C7_penalty_only_on_brightness :
    claimQualityScore 500 10 64 < 0.7 ∧
    assessImageQuality 500 10 64 = 911/1280 ∧
    stage1Gate 500 10 64 = Except.ok (911/1280) := by
  refine ⟨?_, ?_, ?_⟩ <;>
    norm_num [claimQualityScore, assessImageQuality, stage1Gate, abs, min_def]

/-- C7 (amended): the Stage-1 quality score is
`0.4·blur + 0.3·brightness + 0.3·contrast` where only the brightness
component is halved when the mean luminance is below 30 or above 220,
capped at 1; and the pipeline short-circuits with error kind
`low_quality` carrying the computed score exactly when that score is
below 0.70 (otherwise it proceeds with the score). -/
theorem C7_quality_gate (b m s : ℚ) :
    assessImageQuality b m s =
      min (0.4 * min (b / 500) 1 +
        0.3 * (if m < 30 ∨ m > 220 then 0.5 * (1 - |m - 128| / 128)
               else 1 - |m - 128| / 128) +
        0.3 * min (s / 64) 1) 1 ∧
    (stage1Gate b m s = Except.error ("low_quality", assessImageQuality b m s) ↔
      assessImageQuality b m s < 0.7) ∧
    (stage1Gate b m s = Except.ok (assessImageQuality b m s) ↔
      ¬ assessImageQuality b m s < 0.7) := by
  refine ⟨?_, ?_, ?_⟩
  · unfold assessImageQuality
    split_ifs <;> ring_nf
  · unfold stage1Gate
    by_cases h : assessImageQuality b m s < 0.7 <;> simp [h]
  · unfold stage1Gate
    by_cases h : assessImageQuality b m s < 0.7 <;> simp [h]

end HillsFitness

namespace HillsFitness

/-! ## Navy body-fat formula and its fallbacks
(services/vision_pipeline.py `_calculate_navy_body_fat`,
utils/helpers.py `estimate_body_fat_navy`)

`math.log10` is an external libm call that raises `ValueError` exactly
when its argument is ≤ 0; it is passed in as an abstract `lg : ℚ → ℚ`,
and each `try/except` is modelled by testing the log arguments. -/

/-- `_calculate_navy_body_fat` (vision_pipeline.py lines 368–385):
male formula when `sex.lower() in ['male', 'm']`, else female formula
with `hip = waist * 1.1` when the hip value is falsy; result clamped to
[3, 50]; on `ValueError` (a log argument ≤ 0) the sex default 15.0 /
23.0. -/
def pipelineNavyBF (lg : ℚ → ℚ) (waist neck height : ℚ) (sex : String)
    (hip : Option ℚ) : ℚ :=
  if pyLower sex = "male" ∨ pyLower sex = "m" then
    if waist - neck ≤ 0 ∨ height ≤ 0 then 15.0
    else max 3.0 (min 50.0 (86.010 * lg (waist - neck) - 70.041 * lg height + 36.76))
  else
    let hipVal := match hip with
      | none => waist * 1.1
      | some hv => if hv = 0 then waist * 1.1 else hv
    if waist + hipVal - neck ≤ 0 ∨ height ≤ 0 then 23.0
    else max 3.0 (min 50.0 (163.205 * lg (waist + hipVal - neck) - 97.684 * lg height - 78.387))

/-- `estimate_body_fat_navy` (utils/helpers.py lines 43–58): explicit
domain guards returning 15.0 (male) and 22.0 (female / missing hip);
result clamped to [5, 50]. -/
def helpersNavyBF (lg : ℚ → ℚ) (waist neck height : ℚ) (sex : String)
    (hip : Option ℚ) : ℚ :=
  if pyLower sex = "male" then
    if waist ≤ neck ∨ height ≤ 0 then 15.0
    else max 5.0 (min 50.0 (86.010 * lg (waist - neck) - 70.041 * lg height + 36.76))
  else
    match hip with
    | none => 22.0
    | some hv =>
      if hv = 0 then 22.0
      else if waist + hv ≤ neck ∨ height ≤ 0 then 22.0
      else max 5.0 (min 50.0 (163.205 * lg (waist + hv - neck) - 97.684 * lg height - 78.387))

/-- `_estimate_visual_body_fat` (vision_pipeline.py lines 387–401) as a
function of the Canny edge density of the segmented image (an external
CV computation, passed as a scalar): sex baseline 25 (female) / 18,
plus `(0.5 - edgeDensity) * 20`, clamped to [8, 45]. -/
def visualBF (edgeDensity : ℚ) (sex : String) : ℚ :=
  let base := if pyLower sex = "female" ∨ pyLower sex = "f" then 25.0 else 18.0
  max 8.0 (min 45.0 (base + (0.5 - edgeDensity) * 20))

/-- `_estimate_ratio_body_fat` (vision_pipeline.py lines 403–425):
waist-to-hip ratio bucketed by sex. -/
def ratioBF (waist hip : ℚ) (sex : String) : ℚ :=
  let whr := if hip > 0 then waist / hip else 0.8
  if pyLower sex = "male" ∨ pyLower sex = "m" then
    if whr < 0.85 then 12.0 else if whr < 0.95 then 18.0 else 25.0
  else
    if whr < 0.75 then 16.0 else if whr < 0.85 then 23.0 else 32.0

/-- `_stage5_body_composition` (vision_pipeline.py lines 255–290):
final body fat (rounded to one decimal, Python semantics) and the
confidence tier, from the three estimators. -/
def stage5BodyComposition (lg : ℚ → ℚ) (edgeDensity waist neck hip height : ℚ)
    (sex : String) : ℚ × String :=
  let navy := pipelineNavyBF lg waist neck height sex (some hip)
  let visual := visualBF edgeDensity sex
  let ratio := ratioBF waist hip sex
  (pyRound1 (stage5FinalBF navy visual ratio), stage5Confidence navy visual ratio)

end HillsFitness

namespace HillsFitness

/-! ## Claim theorems: C5 -/

/-- C5 counterexample: a male record whose Navy inputs are in the error
domain (`waist = neck = 40`) takes the fallback value 15, yet the
emitted confidence is "high", not "low": with edge density 0.65 the
visual estimate is 15 and the ratio estimate 12, the weighted mean is
14.4, and every deviation stays below 3.  The confidence tier ignores
whether the Navy computation fell back. -/
theorem C5_fallback_confidence_can_be_high :
    pipelineNavyBF (fun _ => 0) 40 40 170 "male" (some 50) = 15 ∧
    (stage5BodyComposition (fun _ => 0) (13/20) 40 40 50 170 "male").2 = "high" := by
  have hm : (pyLower "male" = "male" ∨ pyLower "male" = "m") := by decide
  have hnavy : pipelineNavyBF (fun _ => 0) 40 40 170 "male" (some 50) = 15 := by
    rw [pipelineNavyBF, if_pos hm, if_pos]
    · norm_num
    · norm_num
  refine ⟨hnavy, ?_⟩
  have hvis : visualBF (13/20) "male" = 15 := by
    have hf : ¬ (pyLower "male" = "female" ∨ pyLower "male" = "f") := by decide
    rw [visualBF]
    simp only [hf, if_false]
    norm_num
  have hratio : ratioBF 40 50 "male" = 12 := by
    rw [ratioBF]
    simp only [hm, if_true]
    norm_num
  show stage5Confidence (pipelineNavyBF (fun _ => 0) 40 40 170 "male" (some 50))
      (visualBF (13/20) "male") (ratioBF 40 50 "male") = "high"
  rw [hnavy, hvis, hratio, stage5Confidence, if_pos]
  norm_num [stage5MaxDeviation, stage5FinalBF, abs, max_def]

/-- C5 (amended): on a domain error (for example waist ≤ neck) the
pipeline's Navy computation returns the sex defaults male 15 / female
23, and the helpers variant returns female 22 — but the vision record's
confidence is NOT forced to "low": Stage 5 derives it from the
consistency of the three estimates regardless of the Navy fallback. -/
theorem C5_navy_domain_defaults (lg : ℚ → ℚ) (waist neck height hip : ℚ) :
    (waist - neck ≤ 0 → pipelineNavyBF lg waist neck height "male" (some hip) = 15.0) ∧
    (waist + hip - neck ≤ 0 → hip ≠ 0 →
      pipelineNavyBF lg waist neck height "female" (some hip) = 23.0) ∧
    (waist + hip ≤ neck → hip ≠ 0 →
      helpersNavyBF lg waist neck height "female" (some hip) = 22.0) := by
  have hm : (pyLower "male" = "male" ∨ pyLower "male" = "m") := by decide
  have hf : ¬ (pyLower "female" = "male" ∨ pyLower "female" = "m") := by decide
  have hf2 : ¬ (pyLower "female" = "male") := by decide
  refine ⟨fun hw => ?_, fun hw hh => ?_, fun hw hh => ?_⟩
  · rw [pipelineNavyBF, if_pos hm, if_pos (Or.inl hw)]
  · rw [pipelineNavyBF]
    simp only [hf, if_false, hh, if_neg hh]
    rw [if_pos (Or.inl hw)]
  · rw [helpersNavyBF]
    simp only [hf2, if_false, if_neg hh]
    rw [if_pos (Or.inl hw)]

/-- C5 witness: the amended theorem at waist 40, neck 40, hip 50 (male
branch) and at waist 20, neck 80, hip 30 (female branches). -/
theorem C5_navy_domain_defaults_witness :
    ((40 : ℚ) - 40 ≤ 0 ∧ pipelineNavyBF (fun _ => 0) 40 40 170 "male" (some 50) = 15.0) ∧
    ((20 : ℚ) + 30 - 80 ≤ 0 ∧ pipelineNavyBF (fun _ => 0) 20 80 170 "female" (some 30) = 23.0) ∧
    ((20 : ℚ) + 30 ≤ 80 ∧ helpersNavyBF (fun _ => 0) 20 80 170 "female" (some 30) = 22.0) := by
  refine ⟨⟨by norm_num, (C5_navy_domain_defaults (fun _ => 0) 40 40 170 50).1 (by norm_num)⟩,
    ⟨by norm_num, (C5_navy_domain_defaults (fun _ => 0) 20 80 170 30).2.1 (by norm_num) (by norm_num)⟩,
    ⟨by norm_num, (C5_navy_domain_defaults (fun _ => 0) 20 80 170 30).2.2 (by norm_num) (by norm_num)⟩⟩

/-- C4 counterexample, on a triple Stage 5 actually produces: a male
record with waist = neck = 45 (Navy fallback estimate 15), hip 50
(waist-to-hip ratio 0.9, ratio estimate 18) and edge density 0.5
(visual estimate 18).  The maximum pairwise deviation of (15, 18, 18)
is exactly 3, so the claim assigns tier "medium"; Stage 5 measures
deviation from the weighted mean 16.5 (maximum 1.5 < 3) and emits
"high". -/
theorem C4_stage5_triple_not_pairwise :
    pipelineNavyBF (fun _ => 0) 45 45 170 "male" (some 50) = 15 ∧
    visualBF (1/2) "male" = 18 ∧
    ratioBF 45 50 "male" = 18 ∧
    (stage5BodyComposition (fun _ => 0) (1/2) 45 45 50 170 "male").2 = "high" ∧
    claimPairwiseConfidence 15 18 18 = "medium" := by
  have hm : (pyLower "male" = "male" ∨ pyLower "male" = "m") := by decide
  have hnavy : pipelineNavyBF (fun _ => 0) 45 45 170 "male" (some 50) = 15 := by
    rw [pipelineNavyBF, if_pos hm, if_pos]
    · norm_num
    · norm_num
  have hvis : visualBF (1/2) "male" = 18 := by
    have hf : ¬ (pyLower "male" = "female" ∨ pyLower "male" = "f") := by decide
    rw [visualBF]
    simp only [hf, if_false]
    norm_num
  have hratio : ratioBF 45 50 "male" = 18 := by
    rw [ratioBF]
    simp only [hm, if_true]
    norm_num
  refine ⟨hnavy, hvis, hratio, ?_, ?_⟩
  · show stage5Confidence (pipelineNavyBF (fun _ => 0) 45 45 170 "male" (some 50))
        (visualBF (1/2) "male") (ratioBF 45 50 "male") = "high"
    rw [hnavy, hvis, hratio, stage5Confidence, if_pos]
    norm_num [stage5MaxDeviation, stage5FinalBF, abs, max_def]
  · norm_num [claimPairwiseConfidence, abs, max_def]

end HillsFitness

namespace HillsFitness

/-! ## Measurement and profile validators
(utils/validators.py, `Validators.validate_measurements` lines 38–77 and
`Validators.validate_profile_data` lines 131–136).  Fields are typed
`Option ℚ` / `Option ℤ`, so the `isinstance` arms (which only reject
non-numeric payloads) are vacuous; a `none` field is skipped exactly as
Python skips `None`. -/

/-- `validate_measurements`: accumulate one error string per
out-of-range field, in source order. -/
def validateMeasurements (height weight bodyFat muscle visceral : Option ℚ) :
    List String :=
  (match height with
   | none => []
   | some x => if x < 100 ∨ x > 250 then ["Height must be between 100-250 cm"] else []) ++
  (match weight with
   | none => []
   | some x => if x < 30 ∨ x > 300 then ["Weight must be between 30-300 kg"] else []) ++
  (match bodyFat with
   | none => []
   | some x => if x < 3 ∨ x > 50 then ["Body fat percentage must be between 3-50%"] else []) ++
  (match muscle with
   | none => []
   | some x => if x < 20 ∨ x > 60 then ["Muscle mass percentage must be between 20-60%"] else []) ++
  (match visceral with
   | none => []
   | some x => if x < 1 ∨ x > 30 then ["Visceral fat must be between 1-30"] else [])

/-- The training-days check of `validate_profile_data` (lines 131–136):
`None` is skipped, and the accepted band is 3–6. -/
def trainingDaysErrors (days : Option ℤ) : List String :=
  match days with
  | none => []
  | some n => if n < 3 ∨ n > 6 then ["Training days must be between 3-6 days per week"] else []

end HillsFitness

namespace HillsFitness

/-! ## Claim theorems: C8 -/

/-- Membership in a conditional singleton, used to read the validator's
accumulated error list field by field. -/
theorem mem_ite_singleton {α : Type} [DecidableEq α] (a b : α) (c : Prop) [Decidable c] :
    (a ∈ if c then [b] else []) ↔ c ∧ a = b := by
  split <;> simp_all

/-- C8 counterexample: height 240 cm is outside the claimed range
[100, 230] yet the validator accepts it without any error entry (its
actual band is [100, 250]); and 7 training days, inside the claimed
[1, 7], is rejected (the actual band is [3, 6]). -/
theorem C8_claimed_ranges_differ :
    validateMeasurements (some 240) none none none none = [] ∧
    ¬ ((240 : ℚ) ≤ 230) ∧
    trainingDaysErrors (some 7) = ["Training days must be between 3-6 days per week"] ∧
    (1 ≤ (7 : ℤ) ∧ (7 : ℤ) ≤ 7) := by
  refine ⟨?_, by norm_num, ?_, by norm_num⟩ <;>
    norm_num [validateMeasurements, trainingDaysErrors]

/-- C8 (amended): the validator accepts each numeric field exactly when
it lies in the CODE's ranges — height [100,250], weight [30,300], body
fat [3,50], muscle [20,60], visceral fat [1,30], training days [3,6] —
and emits that field's error entry exactly when it is outside, even in
the presence of the other fields. -/
theorem C8_validator_ranges (h w bf m v : ℚ) (d : ℤ) :
    ("Height must be between 100-250 cm" ∈
        validateMeasurements (some h) (some w) (some bf) (some m) (some v) ↔
      h < 100 ∨ h > 250) ∧
    ("Weight must be between 30-300 kg" ∈
        validateMeasurements (some h) (some w) (some bf) (some m) (some v) ↔
      w < 30 ∨ w > 300) ∧
    ("Body fat percentage must be between 3-50%" ∈
        validateMeasurements (some h) (some w) (some bf) (some m) (some v) ↔
      bf < 3 ∨ bf > 50) ∧
    ("Muscle mass percentage must be between 20-60%" ∈
        validateMeasurements (some h) (some w) (some bf) (some m) (some v) ↔
      m < 20 ∨ m > 60) ∧
    ("Visceral fat must be between 1-30" ∈
        validateMeasurements (some h) (some w) (some bf) (some m) (some v) ↔
      v < 1 ∨ v > 30) ∧
    (trainingDaysErrors (some d) = [] ↔ 3 ≤ d ∧ d ≤ 6) := by
  refine ⟨?_, ?_, ?_, ?_, ?_, ?_⟩
  · simp +decide [validateMeasurements, List.mem_append, mem_ite_singleton]
  · simp +decide [validateMeasurements, List.mem_append, mem_ite_singleton]
  · simp +decide [validateMeasurements, List.mem_append, mem_ite_singleton]
  · simp +decide [validateMeasurements, List.mem_append, mem_ite_singleton]
  · simp +decide [validateMeasurements, List.mem_append, mem_ite_singleton]
  · by_cases hc : d < 3 ∨ d > 6 <;> simp [trainingDaysErrors, hc] <;> omega

end HillsFitness

namespace HillsFitness

/-! ## Post-hoc safety audit
(services/user_service.py, `SafetyValidator.validate_plan` lines
739–766, with `SAFETY_LIMITS` from utils/constants.py).  `profile.sex`
and `profile.gym_experience` are enums in database/models.py, so they
are modelled as inductives. -/

inductive PSex where
  | male
  | female
deriving DecidableEq

inductive Experience where
  | beginner
  | intermediate
  | advanced
deriving DecidableEq

/-- `SAFETY_LIMITS["min_calories"]`. -/
def minCalories : PSex → ℤ
  | .male => 1500
  | .female => 1200

/-- `SAFETY_LIMITS["max_training_days"]`. -/
def maxTrainingDays : Experience → ℕ
  | .beginner => 4
  | .intermediate => 5
  | .advanced => 6

/-- `SAFETY_LIMITS["progression_limits"][experience]["volume_increase"]`. -/
def progressionLimit : Experience → ℚ
  | .beginner => 0.05
  | .intermediate => 0.10
  | .advanced => 0.15

/-- `_check_exercise_progression`: week-over-week relative volume
increases must stay within the experience limit (decreases are never
flagged). -/
def progressionSafe (limit : ℚ) : List ℚ → Bool
  | a :: b :: rest =>
    (decide (b ≤ a) || decide ((b - a) / a ≤ limit)) && progressionSafe limit (b :: rest)
  | _ => true

/-- `SafetyValidator.validate_plan`: the audit map, in source order.
Inputs are the plan fields the Python method reads: daily calories, the
stored `calorie_adjustment` (deficit fraction), protein grams, body
weight, number of week-1 workouts, and the per-week volume multipliers. -/
def validatePlan (calories : ℤ) (calorieAdjustment : ℚ) (protein : ℤ) (weightKg : ℚ)
    (workoutsWeek1 : ℕ) (volumeMultipliers : List ℚ) (sex : PSex) (experience : Experience) :
    List (String × Bool) :=
  [("minimum_calories_met", decide (minCalories sex ≤ calories)),
   ("deficit_within_limits", decide (|calorieAdjustment| ≤ 0.25)),
   ("protein_adequate", decide (weightKg * 0.8 ≤ (protein : ℚ))),
   ("training_frequency_safe", decide (workoutsWeek1 ≤ maxTrainingDays experience)),
   ("exercise_progression_safe", progressionSafe (progressionLimit experience) volumeMultipliers)]

end HillsFitness

namespace HillsFitness

/-! ## Claim theorems: C9 -/

/-- C9 counterexample: the audit map returned by
`SafetyValidator.validate_plan` has no `injury_exclusions_honored` key
at all — shown here on a concrete, ordinary plan. -/
theorem C9_no_injury_key :
    "injury_exclusions_honored" ∉
      (validatePlan 2000 0 120 80 4 [1, 1.05, 1.10, 0.8]
        PSex.male Experience.beginner).map Prod.fst := by
  simp +decide [validatePlan]

/-- C9 (amended): for every plan the audit map carries exactly the five
keys `minimum_calories_met`, `deficit_within_limits`,
`protein_adequate`, `training_frequency_safe` and
`exercise_progression_safe`; no injury rule is audited, so the claimed
`injury_exclusions_honored` key is never present. -/
theorem C9_audit_keys (calories : ℤ) (adj : ℚ) (protein : ℤ) (weight : ℚ)
    (workouts : ℕ) (mults : List ℚ) (sex : PSex) (e : Experience) :
    (validatePlan calories adj protein weight workouts mults sex e).map Prod.fst =
      ["minimum_calories_met", "deficit_within_limits", "protein_adequate",
       "training_frequency_safe", "exercise_progression_safe"] ∧
    "injury_exclusions_honored" ∉
      (validatePlan calories adj protein weight workouts mults sex e).map Prod.fst := by
  refine ⟨rfl, ?_⟩
  simp +decide [validatePlan]

end HillsFitness

namespace HillsFitness

/-! ## Exercise selection and the minimum-five padding loop
(services/user_service.py `Enhanced4WeekPlanGenerator`, with
`EXERCISE_DATABASE` from utils/constants.py).  Catalog entries are
modelled as (name, difficulty) pairs — the fields the selection logic
reads. -/

/-- `EXERCISE_DATABASE`, keyed by muscle group; `.get(group, [])`. -/
def exerciseDB (group : String) : List (String × String) :=
  if group = "chest" then
    [("Push-ups", "beginner"), ("Dumbbell Bench Press", "beginner"),
     ("Incline Dumbbell Press", "intermediate"), ("Dips", "intermediate"),
     ("Chest Flyes", "intermediate")]
  else if group = "back" then
    [("Pull-ups", "intermediate"), ("Bent-over Rows", "intermediate"),
     ("Lat Pulldown", "beginner"), ("Deadlifts", "advanced"),
     ("Single-arm Dumbbell Row", "beginner")]
  else if group = "shoulders" then
    [("Overhead Press", "beginner"), ("Lateral Raises", "beginner"),
     ("Face Pulls", "beginner"), ("Pike Push-ups", "intermediate"),
     ("Arnold Press", "intermediate")]
  else if group = "triceps" then
    [("Tricep Dips", "beginner"), ("Close-grip Push-ups", "beginner"),
     ("Overhead Tricep Extension", "beginner"), ("Tricep Pushdowns", "beginner")]
  else if group = "biceps" then
    [("Bicep Curls", "beginner"), ("Hammer Curls", "beginner"),
     ("Chin-ups", "intermediate"), ("21s", "intermediate")]
  else if group = "legs" then
    [("Bodyweight Squats", "beginner"), ("Goblet Squats", "beginner"),
     ("Lunges", "beginner"), ("Romanian Deadlifts", "intermediate"),
     ("Bulgarian Split Squats", "intermediate"), ("Calf Raises", "beginner"),
     ("Wall Sits", "beginner")]
  else if group = "core" then
    [("Plank", "beginner"), ("Dead Bug", "beginner"),
     ("Mountain Climbers", "intermediate"), ("Russian Twists", "beginner"),
     ("Bicycle Crunches", "beginner"), ("Side Plank", "intermediate")]
  else []

/-- `_is_suitable_for_experience` (user_service.py lines 286–295). -/
def isSuitableForExperience (difficulty experience : String) : Bool :=
  if experience = "beginner" then
    difficulty == "beginner" || difficulty == "intermediate"
  else if experience = "intermediate" then
    difficulty == "beginner" || difficulty == "intermediate" || difficulty == "advanced"
  else true

/-- `_select_exercises` (lines 252–284): per scheduled muscle group,
filter the catalog by experience and keep the first two entries. -/
def selectExercises (groups : List String) (experience : String) :
    List (String × String) :=
  groups.flatMap fun g =>
    ((exerciseDB g).filter fun e => isSuitableForExperience e.2 experience).take 2

/-- `_get_additional_exercises` (lines 330–350): two accessory core
exercises, but NOTHING when `core` is already among the day's muscle
groups. -/
def additionalExercises (groups : List String) : List (String × String) :=
  if groups.contains "core" then [] else (exerciseDB "core").take 2

/-- `_get_training_split` (lines 177–225), including the fall-through
default for day counts the experience branch does not handle. -/
def getTrainingSplit (experience : String) (days : ℕ) :
    List (String × List String) :=
  if experience = "beginner" then
    if days = 3 then
      [("Day 1", ["chest", "shoulders", "triceps"]),
       ("Day 2", ["back", "biceps"]),
       ("Day 3", ["legs", "core"])]
    else if days = 4 then
      [("Day 1", ["chest", "triceps"]), ("Day 2", ["back", "biceps"]),
       ("Day 3", ["legs"]), ("Day 4", ["shoulders", "core"])]
    else
      [("Day 1", ["chest", "shoulders"]), ("Day 2", ["back", "biceps"]),
       ("Day 3", ["legs"]), ("Day 4", ["arms", "core"])]
  else if experience = "intermediate" then
    if days = 4 then
      [("Day 1", ["chest", "shoulders"]), ("Day 2", ["back", "biceps"]),
       ("Day 3", ["legs"]), ("Day 4", ["arms", "core"])]
    else if days = 5 then
      [("Day 1", ["chest"]), ("Day 2", ["back"]), ("Day 3", ["legs"]),
       ("Day 4", ["shoulders"]), ("Day 5", ["arms", "core"])]
    else
      [("Day 1", ["chest", "shoulders"]), ("Day 2", ["back", "biceps"]),
       ("Day 3", ["legs"]), ("Day 4", ["arms", "core"])]
  else
    [("Day 1", ["chest", "triceps"]), ("Day 2", ["back", "biceps"]),
     ("Day 3", ["legs"]), ("Day 4", ["shoulders"]), ("Day 5", ["arms"]),
     ("Day 6", ["legs", "core"])]

/-- The `while len(exercises) < 5` padding loop of
`_generate_week_workouts` (lines 234–238), fuel-indexed: each pass
appends `additionalExercises` and truncates to 8; `none` means the loop
condition still held after `fuel` passes, i.e. for every fuel the loop
has not terminated. -/
def padExercises (groups : List String) :
    ℕ → List (String × String) → Option (List (String × String))
  | 0, exs => if 5 ≤ exs.length then some exs else none
  | n + 1, exs =>
    if 5 ≤ exs.length then some exs
    else padExercises groups n ((exs ++ additionalExercises groups).take 8)

end HillsFitness

namespace HillsFitness

/-! ## Claim theorems: C10 -/

/-- C10: plan generation does NOT terminate for every profile.  For a
beginner with 3 training days the split schedules Day 3 with muscle
groups [legs, core]; exercise selection yields only 4 exercises (two
per group), and because `core` is already scheduled,
`_get_additional_exercises` returns nothing — so the `while
len(exercises) < 5` loop makes no progress and never exits, whatever
the fuel. -/
theorem C10_core_day_padding_diverges :
    (("Day 3", ["legs", "core"]) ∈ getTrainingSplit "beginner" 3) ∧
    (selectExercises ["legs", "core"] "beginner").length = 4 ∧
    additionalExercises ["legs", "core"] = [] ∧
    (∀ fuel : ℕ,
      padExercises ["legs", "core"] fuel (selectExercises ["legs", "core"] "beginner") = none) := by
  refine ⟨by decide, by decide, by decide, fun fuel => ?_⟩
  induction fuel with
  | zero => decide
  | succ n ih =>
    have h4 : ¬ (5 ≤ (selectExercises ["legs", "core"] "beginner").length) := by decide
    have hstep :
        ((selectExercises ["legs", "core"] "beginner" ++
          additionalExercises ["legs", "core"]).take 8) =
          selectExercises ["legs", "core"] "beginner" := by decide
    rw [padExercises, if_neg h4, hstep]
    exact ih

end HillsFitness
